import Mathlib

/-!
Verification of the DiceRolling repository (Cewerty/DiceRolling).

The repository contains two revisions of the same dice core:
* the current package under src/src/diceroller/ (dice.py, dice_strategies.py),
  with a frozen Dice dataclass, and
* a legacy revision at the top level (src/dice.py, src/diceStrategies.py),
  with a mutable Dice class and an older MultipleRoll.

Randomness is modelled by giving each randomization strategy the type
Int → Int → Nat → Int: the first two arguments are the inclusive bounds
passed to randint, the third is the index of the call (the internal
generator state, which advances by one on every draw).  Roll strategies
thread this call counter explicitly, so "makes exactly n draws" is the
statement that the counter advances by n.  Python ints are modelled by
Int; a constructor that can raise is modelled as Except String.
-/

namespace DiceRolling

/-- A randomization strategy (the RandomStrategy protocol of
dice_strategies.py): given the inclusive bounds handed to randint and the
index of the call, produce the drawn integer. -/
def RandomStrategyFun : Type := Int → Int → Nat → Int

/-- The roll strategies implemented in dice_strategies.py /
diceStrategies.py: DefaultRoll, DisadvantageRoll, AdvantageRoll and
MultipleRoll (the latter parameterized by its times attribute). -/
inductive RollStrategy where
  | DefaultRoll : RollStrategy
  | DisadvantageRoll : RollStrategy
  | AdvantageRoll : RollStrategy
  | MultipleRoll (times : Int) : RollStrategy
deriving DecidableEq, Repr

/-- The Dice value of src/src/diceroller/dice.py: sides, a bound
randomization strategy and a bound roll strategy (the attributes exposed by
the read-only properties smallest_side, biggest_side,
randomization_strategy, roll_strategy). -/
structure Dice where
  smallest_side : Int
  biggest_side : Int
  randomization_strategy : RandomStrategyFun
  roll_strategy : RollStrategy

/-- The expression every roll strategy evaluates to draw once from a die:
dice.randomization_strategy.randint(dice.smallest_side, dice.biggest_side),
at call index j. -/
def Dice.draw (dice : Dice) (j : Nat) : Int :=
  dice.randomization_strategy dice.smallest_side dice.biggest_side j

/-- The generator sum in MultipleRoll.roll:
sum(dice.randomization_strategy.randint(...) for _ in range(times)),
drawing n times starting at call index k.  range of a non-positive Python
int is empty, which is why callers pass Int.toNat of the times attribute. -/
def sumDraws (dice : Dice) : Nat → Nat → Int
  | 0, _ => 0
  | n + 1, k => dice.draw k + sumDraws dice n (k + 1)

/-- The roll methods of the four strategy classes in
src/src/diceroller/dice_strategies.py (identical in src/diceStrategies.py):
* DefaultRoll.roll: one draw, result draw + modifier;
* DisadvantageRoll.roll: two draws, min(first_roll, second_roll) + modifier;
* AdvantageRoll.roll: two draws, max(first_roll, second_roll) + modifier;
* MultipleRoll.roll: sum of range(self.times) draws, plus modifier.
Returns the result together with the advanced call counter. -/
def RollStrategy.roll (s : RollStrategy) (dice : Dice) (modifier : Int)
    (k : Nat) : Int × Nat :=
  match s with
  | .DefaultRoll => (dice.draw k + modifier, k + 1)
  | .DisadvantageRoll =>
      let first_roll := dice.draw k
      let second_roll := dice.draw (k + 1)
      (min first_roll second_roll + modifier, k + 2)
  | .AdvantageRoll =>
      let first_roll := dice.draw k
      let second_roll := dice.draw (k + 1)
      (max first_roll second_roll + modifier, k + 2)
  | .MultipleRoll times =>
      (sumDraws dice times.toNat k + modifier, k + times.toNat)

/-- Dice.roll of src/src/diceroller/dice.py: if inserted_roll_strategy is
None, delegate to self.roll_strategy.roll(self, modifier); otherwise to
inserted_roll_strategy.roll(self, modifier). -/
def Dice.roll (dice : Dice) (modifier : Int)
    (inserted_roll_strategy : Option RollStrategy) (k : Nat) : Int × Nat :=
  match inserted_roll_strategy with
  | none => dice.roll_strategy.roll dice modifier k
  | some s => s.roll dice modifier k

/-- Dice.check_success of src/src/diceroller/dice.py:
self.roll(inserted_roll_strategy=inserted_roll_strategy) >= check, the
modifier argument of roll keeping its default 0. -/
def Dice.check_success (dice : Dice) (check : Int)
    (inserted_roll_strategy : Option RollStrategy) (k : Nat) : Bool × Nat :=
  let r := dice.roll 0 inserted_roll_strategy k
  (decide (r.1 ≥ check), r.2)

/-- Dice.__post_init__ of src/src/diceroller/dice.py raises ValueError
exactly when this condition holds. -/
def Dice.post_init_raises (smallest_side biggest_side : Int) : Bool :=
  decide (smallest_side ≥ biggest_side) || decide (smallest_side < 0)

/-- Construction of a diceroller Dice: dataclass field assignment followed
by __post_init__, which raises ValueError on bad sides and otherwise leaves
the fully built frozen instance. -/
def Dice.make (smallest_side biggest_side : Int) (rand : RandomStrategyFun)
    (strat : RollStrategy) : Except String Dice :=
  if Dice.post_init_raises smallest_side biggest_side then
    .error "ValueError: Incorrect sides"
  else
    .ok ⟨smallest_side, biggest_side, rand, strat⟩

/-- A call dice.roll(...) viewed as a method on the object: it returns the
result together with the post-call object and counter.  The class is a
frozen dataclass and the method body contains no field assignment, so the
post-call object is the receiver itself. -/
def Dice.roll_method (dice : Dice) (modifier : Int)
    (inserted_roll_strategy : Option RollStrategy) (k : Nat) :
    Int × Dice × Nat :=
  let r := dice.roll modifier inserted_roll_strategy k
  (r.1, dice, r.2)

/-- A call dice.check_success(...) viewed as a method on the object,
analogously to Dice.roll_method: no field assignment occurs. -/
def Dice.check_success_method (dice : Dice) (check : Int)
    (inserted_roll_strategy : Option RollStrategy) (k : Nat) :
    Bool × Dice × Nat :=
  let r := dice.check_success check inserted_roll_strategy k
  (r.1, dice, r.2)

/-- The legacy Dice of src/dice.py: same four attributes (exposed as
smallest_side, biggest_side, randomizationStrategy, rollStrategy), but the
dataclass is not frozen and rollStrategy has a public setter. -/
structure LegacyDice where
  smallest_side : Int
  biggest_side : Int
  randomizationStrategy : RandomStrategyFun
  rollStrategy : RollStrategy

/-- The condition in the legacy Dice.__post_init__ of src/dice.py under
which the body builds a ValueError:
not (smallest >= 0 and ((smallest != biggest) or (smallest > biggest))). -/
def LegacyDice.post_init_error_condition (smallest biggest : Int) : Bool :=
  !(decide (smallest ≥ 0) &&
    (decide (smallest ≠ biggest) || decide (smallest > biggest)))

/-- Construction of a legacy Dice (src/dice.py).  Its __post_init__ writes
return ValueError(...) instead of raise: the exception object is returned
from __post_init__ — whose return value the dataclass machinery discards —
so construction completes for every pair of sides. -/
def LegacyDice.make (smallest biggest : Int) (rand : RandomStrategyFun)
    (strat : RollStrategy) : Except String LegacyDice :=
  let _discarded := LegacyDice.post_init_error_condition smallest biggest
  .ok ⟨smallest, biggest, rand, strat⟩

/-- The rollStrategy setter of src/dice.py
(self._rollStrategy = newRollStrategy): the post-state of the die after the
public assignment d.rollStrategy = newRollStrategy. -/
def LegacyDice.set_rollStrategy (d : LegacyDice)
    (newRollStrategy : RollStrategy) : LegacyDice :=
  { d with rollStrategy := newRollStrategy }

/-- The instance cache of MultipleRoll: a mapping from times values to
instance identities, plus a supply of fresh identities.  Two constructed
strategies are the same Python object exactly when their identities are
equal. -/
structure MRCache where
  entries : List (Int × Nat)
  next_id : Nat

/-- Lookup of times in the instance cache (times in cls._instances). -/
def MRCache.lookup (c : MRCache) (times : Int) : Option Nat :=
  (c.entries.find? (fun p => p.1 == times)).map (fun p => p.2)

/-- The empty instance cache, the state at module import. -/
def MRCache.empty : MRCache := ⟨[], 0⟩

/-- MultipleRoll.__new__ of the legacy src/diceStrategies.py: no validation
of times; if times is not cached, a fresh instance (with _times = times) is
created and cached, and the cached instance is returned.  The result is the
(times, identity) pair of the returned instance together with the updated
cache. -/
def MultipleRoll_new (c : MRCache) (times : Int) : (Int × Nat) × MRCache :=
  match c.lookup times with
  | some id => ((times, id), c)
  | none =>
      ((times, c.next_id), ⟨(times, c.next_id) :: c.entries, c.next_id + 1⟩)

/-- MultipleRoll.__new__ of src/src/diceroller/dice_strategies.py: a cache
hit returns the cached instance, but a cache miss executes
self = super().__new__() — object.__new__ called without the class
argument — which raises TypeError before any instance is created. -/
def MultipleRoll_new_diceroller (c : MRCache) (times : Int) :
    Except String ((Int × Nat) × MRCache) :=
  match c.lookup times with
  | some id => .ok ((times, id), c)
  | none => .error "TypeError: object.__new__(): not enough arguments"

/-- MultipleRoll.__eq__ of src/src/diceroller/dice_strategies.py:
isinstance(other, MultipleRoll) and other.times == self.times, for a
receiver whose times attribute is self_times. -/
def MultipleRoll_eq (self_times : Int) (other : RollStrategy) : Bool :=
  match other with
  | .MultipleRoll t => t == self_times
  | _ => false

/-- A fixed-value randomization strategy always returning v, the test
double the spec scenarios use. -/
def constRand (v : Int) : RandomStrategyFun := fun _ _ _ => v

/-- Die(1, 20) with a fixed-value source returning 15 and the default
single-draw strategy (the scenario of the spec). -/
def d20fixed : Dice := ⟨1, 20, constRand 15, RollStrategy.DefaultRoll⟩

/-- Die(1, 6) with a fixed-value source returning 3 and the default
single-draw strategy, used as a concrete witness die. -/
def d6c3 : Dice := ⟨1, 6, constRand 3, RollStrategy.DefaultRoll⟩

/-- A legacy d6 with the default single-draw strategy bound. -/
def legacyD6 : LegacyDice := ⟨1, 6, constRand 3, RollStrategy.DefaultRoll⟩

/-- Draws of a die lie within its own side bounds: the hypothesis that the
bound randomization strategy honours the randint contract on the die's
range. -/
def DrawsInRange (d : Dice) : Prop :=
  ∀ j, d.smallest_side ≤ d.draw j ∧ d.draw j ≤ d.biggest_side

/-- Bounds for a sum of n in-range draws, by induction on n. -/
theorem sumDraws_bounds (d : Dice) (h : DrawsInRange d) :
    ∀ (n k : Nat),
      (n : Int) * d.smallest_side ≤ sumDraws d n k ∧
      sumDraws d n k ≤ (n : Int) * d.biggest_side := by
  intro n
  induction n with
  | zero => intro k; simp [sumDraws]
  | succ n ih =>
      intro k
      obtain ⟨ih1, ih2⟩ := ih (k + 1)
      obtain ⟨h1, h2⟩ := h k
      simp only [sumDraws]
      constructor
      · push_cast
        nlinarith [ih1, h1]
      · push_cast
        nlinarith [ih2, h2]

/-- C1: at sides (5, 3) the diceroller constructor fails with ValueError, as
the claim demands, but the legacy src/dice.py constructor succeeds: its
__post_init__ returns the ValueError object instead of raising it (and its
side condition does not even flag the inverted pair (5, 3)). -/
theorem C1_legacy_invalid_sides_construct :
    (Dice.make 5 3 (constRand 0) RollStrategy.DefaultRoll).isOk = false ∧
    (LegacyDice.make 5 3 (constRand 0) RollStrategy.DefaultRoll).isOk = true ∧
    LegacyDice.post_init_error_condition 5 3 = false := by
  refine ⟨rfl, rfl, by decide⟩

/-- C2: Dice.roll with an inserted strategy returns exactly that strategy's
roll of the die and modifier; without one it returns exactly the bound
strategy's roll; the call mutates no field of the die; and the result is
returned verbatim without clamping — with modifier 100 the fixed d20 rolls
115, above its biggest side. -/
theorem C2_roll_delegates :
    (∀ (d : Dice) (m : Int) (s : RollStrategy) (k : Nat),
        d.roll m (some s) k = s.roll d m k) ∧
    (∀ (d : Dice) (m : Int) (k : Nat),
        d.roll m none k = d.roll_strategy.roll d m k) ∧
    (∀ (d : Dice) (m : Int) (s : Option RollStrategy) (k : Nat),
        (d.roll_method m s k).2.1 = d) ∧
    (d20fixed.roll 100 none 0).1 = 115 ∧
    d20fixed.biggest_side < (d20fixed.roll 100 none 0).1 := by
  refine ⟨fun _ _ _ _ => rfl, fun _ _ _ => rfl, fun _ _ _ _ => rfl,
    by decide, by decide⟩

/-- C3: check_success returns exactly the comparison of a roll with
modifier 0 (and the same override) against the threshold, and on
Die(1, 20) with a fixed source returning 15 and the default strategy,
roll() is 15, check_success(10) is true and check_success(16) is false. -/
theorem C3_check_success_spec :
    (∀ (d : Dice) (t : Int) (ins : Option RollStrategy) (k : Nat),
        (d.check_success t ins k).1 = decide ((d.roll 0 ins k).1 ≥ t)) ∧
    (d20fixed.roll 0 none 0).1 = 15 ∧
    (d20fixed.check_success 10 none 0).1 = true ∧
    (d20fixed.check_success 16 none 0).1 = false := by
  refine ⟨fun _ _ _ _ => rfl, by decide, by decide, by decide⟩

/-- C4: the single-draw strategy makes exactly one draw (the call counter
advances by one) and returns that draw plus the modifier, so when the
source draws within the die's bounds the result lies in
[smallest + m, biggest + m]. -/
theorem C4_default_roll_bounds (d : Dice) (m : Int) (k : Nat)
    (h : DrawsInRange d) :
    RollStrategy.roll RollStrategy.DefaultRoll d m k = (d.draw k + m, k + 1) ∧
    d.smallest_side + m ≤ (RollStrategy.roll RollStrategy.DefaultRoll d m k).1 ∧
    (RollStrategy.roll RollStrategy.DefaultRoll d m k).1 ≤ d.biggest_side + m := by
  obtain ⟨h1, h2⟩ := h k
  refine ⟨rfl, ?_, ?_⟩
  · show d.smallest_side + m ≤ d.draw k + m
    linarith
  · show d.draw k + m ≤ d.biggest_side + m
    linarith

/-- Witness for C4 on the fixed d6 returning 3, with modifier 2. -/
theorem C4_default_roll_bounds_witness :
    RollStrategy.roll RollStrategy.DefaultRoll d6c3 2 0 = (d6c3.draw 0 + 2, 0 + 1) ∧
    d6c3.smallest_side + 2 ≤ (RollStrategy.roll RollStrategy.DefaultRoll d6c3 2 0).1 ∧
    (RollStrategy.roll RollStrategy.DefaultRoll d6c3 2 0).1 ≤ d6c3.biggest_side + 2 :=
  C4_default_roll_bounds d6c3 2 0
    (fun _ => ⟨(by decide : (1 : Int) ≤ 3), (by decide : (3 : Int) ≤ 6)⟩)

/-- C5: Advantage draws exactly twice (successive call indices, counter
advances by two) and returns the maximum of the two distinct draws plus the
modifier; Disadvantage likewise with the minimum; with in-range draws both
results lie in [smallest + m, biggest + m]. -/
theorem C5_advantage_disadvantage (d : Dice) (m : Int) (k : Nat)
    (h : DrawsInRange d) :
    RollStrategy.roll RollStrategy.AdvantageRoll d m k
      = (max (d.draw k) (d.draw (k + 1)) + m, k + 2) ∧
    RollStrategy.roll RollStrategy.DisadvantageRoll d m k
      = (min (d.draw k) (d.draw (k + 1)) + m, k + 2) ∧
    d.smallest_side + m ≤ (RollStrategy.roll RollStrategy.AdvantageRoll d m k).1 ∧
    (RollStrategy.roll RollStrategy.AdvantageRoll d m k).1 ≤ d.biggest_side + m ∧
    d.smallest_side + m ≤ (RollStrategy.roll RollStrategy.DisadvantageRoll d m k).1 ∧
    (RollStrategy.roll RollStrategy.DisadvantageRoll d m k).1 ≤ d.biggest_side + m := by
  obtain ⟨h1, h2⟩ := h k
  obtain ⟨h3, h4⟩ := h (k + 1)
  refine ⟨rfl, rfl, ?_, ?_, ?_, ?_⟩
  · show d.smallest_side + m ≤ max (d.draw k) (d.draw (k + 1)) + m
    exact add_le_add_right (le_trans h1 (le_max_left _ _)) m
  · show max (d.draw k) (d.draw (k + 1)) + m ≤ d.biggest_side + m
    exact add_le_add_right (max_le h2 h4) m
  · show d.smallest_side + m ≤ min (d.draw k) (d.draw (k + 1)) + m
    exact add_le_add_right (le_min h1 h3) m
  · show min (d.draw k) (d.draw (k + 1)) + m ≤ d.biggest_side + m
    exact add_le_add_right (le_trans (min_le_left _ _) h2) m

/-- Witness for C5 on the fixed d6 returning 3, with modifier -1. -/
theorem C5_advantage_disadvantage_witness :
    RollStrategy.roll RollStrategy.AdvantageRoll d6c3 (-1) 0
      = (max (d6c3.draw 0) (d6c3.draw (0 + 1)) + (-1), 0 + 2) ∧
    RollStrategy.roll RollStrategy.DisadvantageRoll d6c3 (-1) 0
      = (min (d6c3.draw 0) (d6c3.draw (0 + 1)) + (-1), 0 + 2) ∧
    d6c3.smallest_side + (-1) ≤ (RollStrategy.roll RollStrategy.AdvantageRoll d6c3 (-1) 0).1 ∧
    (RollStrategy.roll RollStrategy.AdvantageRoll d6c3 (-1) 0).1 ≤ d6c3.biggest_side + (-1) ∧
    d6c3.smallest_side + (-1) ≤ (RollStrategy.roll RollStrategy.DisadvantageRoll d6c3 (-1) 0).1 ∧
    (RollStrategy.roll RollStrategy.DisadvantageRoll d6c3 (-1) 0).1 ≤ d6c3.biggest_side + (-1) :=
  C5_advantage_disadvantage d6c3 (-1) 0
    (fun _ => ⟨(by decide : (1 : Int) ≤ 3), (by decide : (3 : Int) ≤ 6)⟩)

/-- C6: MultipleRoll with a positive times makes exactly times draws (the
call counter advances by times) and returns their sum plus the modifier,
so with in-range draws the result lies in
[times * smallest + m, times * biggest + m]. -/
theorem C6_multiple_roll_bounds (d : Dice) (m times : Int) (k : Nat)
    (htimes : 1 ≤ times) (h : DrawsInRange d) :
    RollStrategy.roll (RollStrategy.MultipleRoll times) d m k
      = (sumDraws d times.toNat k + m, k + times.toNat) ∧
    (times.toNat : Int) = times ∧
    times * d.smallest_side + m
      ≤ (RollStrategy.roll (RollStrategy.MultipleRoll times) d m k).1 ∧
    (RollStrategy.roll (RollStrategy.MultipleRoll times) d m k).1
      ≤ times * d.biggest_side + m := by
  have htn : ((times.toNat : Int)) = times := Int.toNat_of_nonneg (by linarith)
  obtain ⟨hl, hu⟩ := sumDraws_bounds d h times.toNat k
  rw [htn] at hl hu
  refine ⟨rfl, htn, ?_, ?_⟩
  · show times * d.smallest_side + m ≤ sumDraws d times.toNat k + m
    exact add_le_add_right hl m
  · show sumDraws d times.toNat k + m ≤ times * d.biggest_side + m
    exact add_le_add_right hu m

/-- Witness for C6 on the fixed d6 returning 3, with times 2 and
modifier 1. -/
theorem C6_multiple_roll_bounds_witness :
    RollStrategy.roll (RollStrategy.MultipleRoll 2) d6c3 1 0
      = (sumDraws d6c3 (Int.toNat 2) 0 + 1, 0 + Int.toNat 2) ∧
    ((Int.toNat 2 : Nat) : Int) = 2 ∧
    2 * d6c3.smallest_side + 1
      ≤ (RollStrategy.roll (RollStrategy.MultipleRoll 2) d6c3 1 0).1 ∧
    (RollStrategy.roll (RollStrategy.MultipleRoll 2) d6c3 1 0).1
      ≤ 2 * d6c3.biggest_side + 1 :=
  C6_multiple_roll_bounds d6c3 1 2 0 (by decide)
    (fun _ => ⟨(by decide : (1 : Int) ≤ 3), (by decide : (3 : Int) ≤ 6)⟩)

/-- C7: neither revision rejects a Sum-of-N count below 1 with a
ConfigurationError.  The legacy src/diceStrategies.py constructor accepts
times = 0 (returning an instance whose times is 0), and rolling that
strategy performs zero draws and returns just the modifier; the diceroller
revision instead fails for every uncached times — 0 and 3 alike — with the
TypeError raised by its argumentless super().__new__() call. -/
theorem C7_no_times_validation :
    (MultipleRoll_new MRCache.empty 0).1 = (0, 0) ∧
    RollStrategy.roll (RollStrategy.MultipleRoll 0) d6c3 7 0 = (7, 0) ∧
    (MultipleRoll_new_diceroller MRCache.empty 0).isOk = false ∧
    (MultipleRoll_new_diceroller MRCache.empty 3).isOk = false := by
  refine ⟨rfl, by decide, rfl, rfl⟩

/-- C8: MultipleRoll value equality holds exactly on equal times values
(the diceroller __eq__), never against the other strategy classes; the
legacy cached constructor returns the same instance identity for two
constructions exactly when the times values coincide; and caching is
invisible: the instance returned for a request always carries the
requested times. -/
theorem C8_value_equality_and_caching :
    (∀ (t1 t2 : Int),
        MultipleRoll_eq t1 (RollStrategy.MultipleRoll t2) = true ↔ t2 = t1) ∧
    (∀ (t : Int),
        MultipleRoll_eq t RollStrategy.DefaultRoll = false ∧
        MultipleRoll_eq t RollStrategy.AdvantageRoll = false ∧
        MultipleRoll_eq t RollStrategy.DisadvantageRoll = false) ∧
    (∀ (t1 t2 : Int),
        ((MultipleRoll_new (MultipleRoll_new MRCache.empty t1).2 t2).1.2
          = (MultipleRoll_new MRCache.empty t1).1.2) ↔ t1 = t2) ∧
    (∀ (c : MRCache) (t : Int), (MultipleRoll_new c t).1.1 = t) := by
  refine ⟨?_, ?_, ?_, ?_⟩
  · intro t1 t2
    simp [MultipleRoll_eq]
  · intro t
    exact ⟨rfl, rfl, rfl⟩
  · intro t1 t2
    by_cases hEq : t1 = t2
    · subst hEq
      simp [MultipleRoll_new, MRCache.lookup, MRCache.empty, List.find?]
    · have hne : (t1 == t2) = false := by
        simpa using hEq
      simp [MultipleRoll_new, MRCache.lookup, MRCache.empty, List.find?, hne]
      exact fun hcontra => absurd hcontra hEq
  · intro c t
    unfold MultipleRoll_new
    cases c.lookup t <;> rfl

/-- C9 as stated is false: the legacy src/dice.py die exposes a public
rollStrategy setter, and applying it to an existing die changes the bound
roll strategy. -/
theorem C9_setter_mutates :
    (legacyD6.set_rollStrategy RollStrategy.AdvantageRoll).rollStrategy
      ≠ legacyD6.rollStrategy := by
  decide

/-- C9 amended: the diceroller Die of src/src/diceroller/dice.py is
immutable — roll and check_success return the receiver with every field
unchanged (the frozen dataclass has no setter and the method bodies assign
no field). -/
theorem C9_diceroller_immutable :
    (∀ (d : Dice) (m : Int) (s : Option RollStrategy) (k : Nat),
        (d.roll_method m s k).2.1 = d) ∧
    (∀ (d : Dice) (t : Int) (s : Option RollStrategy) (k : Nat),
        (d.check_success_method t s k).2.1 = d) :=
  ⟨fun _ _ _ _ => rfl, fun _ _ _ _ => rfl⟩

/-- C10: the legacy MultipleRoll accepts a non-positive times (the
constructed instance carries that times), and rolling it iterates over an
empty range: zero draws (the counter is unchanged) and the result is
exactly the modifier. -/
theorem C10_legacy_nonpositive_times (times : Int) (h : times ≤ 0) :
    (∀ (c : MRCache), (MultipleRoll_new c times).1.1 = times) ∧
    (∀ (d : Dice) (m : Int) (k : Nat),
        RollStrategy.roll (RollStrategy.MultipleRoll times) d m k = (m, k)) := by
  have htn : times.toNat = 0 := Int.toNat_of_nonpos h
  constructor
  · intro c
    unfold MultipleRoll_new
    cases c.lookup times <;> rfl
  · intro d m k
    simp [RollStrategy.roll, htn, sumDraws]

/-- Witness for C10 at times = -2 on the fixed d6, modifier 5. -/
theorem C10_legacy_nonpositive_times_witness :
    RollStrategy.roll (RollStrategy.MultipleRoll (-2)) d6c3 5 3 = (5, 3) :=
  (C10_legacy_nonpositive_times (-2) (by decide)).2 d6c3 5 3

end DiceRolling
